import Mathlib

/-!
Shallow embedding of `tensorflow/c/eager/immediate_execution_context.h`.

The header declares the abstract interface `ImmediateExecutionContext`
(all methods pure virtual) together with the concrete
`ContextDevicePlacementPolicy` enum, the concrete static `classof`
check, and the concrete `internal::ImmediateExecutionContextDeleter`.
The enum, `classof` and the deleter are embedded directly from the
source.  The behaviour of the pure-virtual methods is not in the
repository snapshot (only their declarations and documentation
comments are), so those operations are modelled from the spec, each
marked `Modelled from the spec:` in its doc comment.

Pointers are modelled as natural-number identities, C++ status objects
as a `StatusCode` inductive, externally observable callback and
release activity as explicit event lists, and thread-local state as
maps keyed by an explicit thread id (following the spec design note
that thread-local storage is modelled by explicit per-thread keys).
-/

namespace TFEager

/-- Status codes of the runtime error taxonomy used by the context
interface (the `Status` class itself lives outside this snapshot). -/
inductive StatusCode
  | ok
  | invalidArgument
  | alreadyExists
  | notFound
  | failedPrecondition
  deriving DecidableEq, Repr

/-- Device placement policy, embedded from
`immediate_execution_context.h` lines 40-50.  The numeric values follow
the C++ enumerators. -/
inductive ContextDevicePlacementPolicy
  | DEVICE_PLACEMENT_EXPLICIT
  | DEVICE_PLACEMENT_WARN
  | DEVICE_PLACEMENT_SILENT
  | DEVICE_PLACEMENT_SILENT_FOR_INT32
  deriving DecidableEq, Repr

/-- The C++ enumerator value of a placement policy (lines 42-49). -/
def ContextDevicePlacementPolicy.value : ContextDevicePlacementPolicy → Nat
  | .DEVICE_PLACEMENT_EXPLICIT => 0
  | .DEVICE_PLACEMENT_WARN => 1
  | .DEVICE_PLACEMENT_SILENT => 2
  | .DEVICE_PLACEMENT_SILENT_FOR_INT32 => 3

/-- Data types appearing in the scalar/tensor factory overloads of the
interface (the full `DataType` proto enum is external; only the
constructors the interface touches are modelled). -/
inductive DataType
  | DT_FLOAT
  | DT_DOUBLE
  | DT_INT32
  | DT_INT64
  | DT_UINT64
  | DT_HALF
  | DT_BOOL
  | DT_COMPLEX128
  | DT_STRING
  deriving DecidableEq, Repr

/-- A primitive scalar payload.  Integer carriers are `Int`/`Nat`
(the C++ value passed in is already a fixed-width integer and scalar
creation copies it verbatim); floating, half and complex values are
carried by their bit patterns, since `CreateFloatScalar` and friends
copy the representation bytes and never reinterpret them
arithmetically, and `tstring` is carried by `String`. -/
inductive PrimValue
  | int64Val (v : Int)
  | uint64Val (v : Nat)
  | int32Val (v : Int)
  | floatVal (bits : Nat)
  | doubleVal (bits : Nat)
  | halfVal (bits : Nat)
  | stringVal (v : String)
  | complex128Val (reBits imBits : Nat)
  | boolVal (v : Bool)
  deriving DecidableEq, Repr

/-- A tensor buffer: dtype, dimension sizes (int64 in C++, so `Int`),
and an optional scalar payload (`none` models an uninitialized
allocation from the shaped factory). -/
structure TensorBuffer where
  dtype : DataType
  dims : List Int
  payload : Option PrimValue
  deriving DecidableEq, Repr

/-- A function definition record: the registry keys on `name`; `body`
stands for the rest of the serialized `FunctionDef` proto. -/
structure FunctionDef where
  name : String
  body : String
  deriving DecidableEq, Repr

/-- Modelled from the spec: an operation node submitted to a
per-thread `EagerExecutor`; `nodeStatus` is the status the node
completes with (the op body itself is external). -/
structure OpNode where
  nodeStatus : StatusCode
  deriving DecidableEq, Repr

/-- Modelled from the spec: the per-thread `EagerExecutor` (declared
but not defined in this snapshot): a FIFO list of pending nodes plus
an error state that, while set, rejects new submissions. -/
structure EagerExecutor where
  pending : List OpNode
  errorState : Option StatusCode
  deriving DecidableEq, Repr

/-- A freshly created executor: no pending nodes, no error. -/
def EagerExecutor.init : EagerExecutor :=
  { pending := [], errorState := none }

/-- Modelled from the spec: `Submit(node)` enqueues without blocking;
once an unrecovered error is pending the executor fails fast and
rejects the submission without side effects. -/
def EagerExecutor.submit (e : EagerExecutor) (n : OpNode) :
    StatusCode × EagerExecutor :=
  match e.errorState with
  | some _ => (StatusCode.failedPrecondition, e)
  | none => (StatusCode.ok, { e with pending := e.pending ++ [n] })

/-- Drains a node list in FIFO order, keeping the first error ever
seen (the pre-existing error state is sticky). -/
def drainNodes (errSt : Option StatusCode) : List OpNode → Option StatusCode
  | [] => errSt
  | n :: rest =>
      drainNodes
        (if n.nodeStatus = StatusCode.ok then errSt
         else (errSt.orElse fun _ => some n.nodeStatus)) rest

/-- The status of the first non-ok node of a list, or `ok`. -/
def firstError (nodes : List OpNode) : StatusCode :=
  match nodes.find? (fun n => n.nodeStatus ≠ StatusCode.ok) with
  | some n => n.nodeStatus
  | none => StatusCode.ok

/-- Modelled from the spec: `WaitForAllPending` runs every pending
node to completion, returns the first error encountered (the sticky
error state first, else the first failing node, else ok), and leaves
the executor empty with its error state cleared. -/
def EagerExecutor.waitForAllPending (e : EagerExecutor) :
    StatusCode × EagerExecutor :=
  ((drainNodes e.errorState e.pending).getD StatusCode.ok,
   { pending := [], errorState := none })

/-- The state of an `ImmediateExecutionContext`.  The concrete context
classes are outside this snapshot, so the state is modelled from the
spec data model: function registry, accumulated run metadata, the
per-thread placement policies and executors (keyed by explicit thread
id), the device list, and the store-graphs flag. -/
structure ImmediateExecutionContext where
  functions : List FunctionDef
  runMetadata : List String
  policies : Nat → Option ContextDevicePlacementPolicy
  executors : Nat → EagerExecutor
  devices : List String
  shouldStoreGraphs : Bool

/-- Modelled from the spec: `AddFunctionDef` fails with AlreadyExists
when a function of the same name is registered, leaving the registry
untouched; otherwise it registers the definition atomically. -/
def AddFunctionDef (ctx : ImmediateExecutionContext) (fdef : FunctionDef) :
    StatusCode × ImmediateExecutionContext :=
  if ctx.functions.any (fun f => f.name = fdef.name) then
    (StatusCode.alreadyExists, ctx)
  else
    (StatusCode.ok, { ctx with functions := ctx.functions ++ [fdef] })

/-- Modelled from the spec: `FindFunctionDef` looks a registered
function up by name; it never fails, returning `none` when absent. -/
def FindFunctionDef (ctx : ImmediateExecutionContext) (name : String) :
    Option FunctionDef :=
  ctx.functions.find? (fun f => f.name = name)

/-- Modelled from the spec: `AsyncWait` drains the calling thread's
own executor (identified by the explicit thread id), returning its
first error and leaving that executor cleared; every other thread's
executor is untouched. -/
def AsyncWait (ctx : ImmediateExecutionContext) (tid : Nat) :
    StatusCode × ImmediateExecutionContext :=
  let r := (ctx.executors tid).waitForAllPending
  (r.1,
   { ctx with executors := fun t => if t = tid then r.2 else ctx.executors t })

/-- Modelled from the spec: `ExportRunMetadata` hands the accumulated
metadata to the caller and resets the internal buffer to empty. -/
def ExportRunMetadata (ctx : ImmediateExecutionContext) :
    List String × ImmediateExecutionContext :=
  (ctx.runMetadata, { ctx with runMetadata := [] })

/-- Modelled from the spec: the shaped `CreateTensor(dtype, dims)`
factory allocates an uninitialized tensor of the given shape; any
negative dimension size is an InvalidArgument error that allocates
nothing and leaves the context unchanged (the context is threaded
through to make the absence of state change explicit). -/
def CreateTensorShaped (ctx : ImmediateExecutionContext) (dtype : DataType)
    (dims : List Int) :
    Except StatusCode TensorBuffer × ImmediateExecutionContext :=
  if dims.any (fun d => d < 0) then
    (Except.error StatusCode.invalidArgument, ctx)
  else
    (Except.ok { dtype := dtype, dims := dims, payload := none }, ctx)

/-- Descriptor of an externally-owned buffer handed to the
releaser-overload of `CreateTensor`: the original data pointer
(as an identity), length, and releaser argument pointer. -/
structure ExtBufferDesc where
  data : Nat
  len : Nat
  arg : Nat
  deriving DecidableEq, Repr

/-- An externally observable invocation of the registered
`MemoryReleaser` callback, recording the pointer, length and argument
it was called with. -/
inductive ReleaseEvent
  | releaserCall (data : Nat) (len : Nat) (arg : Nat)
  deriving DecidableEq, Repr

/-- Modelled from the spec: the lifetime state of a tensor buffer
wrapping externally-owned memory: the number of handles still holding
it, whether it is still alive, and the trace of releaser invocations
emitted so far. -/
structure ExtBufferState where
  refs : Nat
  live : Bool
  events : List ReleaseEvent
  deriving DecidableEq, Repr

/-- Modelled from the spec: the externally-owned-memory overload
`CreateTensor(dtype, dims, data, len, releaser, releaser_arg)` wraps
the memory without copying; the resulting buffer starts alive, held by
its one owning handle, with no releaser invocation yet. -/
def createTensorExternal (_d : ExtBufferDesc) : ExtBufferState :=
  { refs := 1, live := true, events := [] }

/-- Lifetime operations that can reach an externally-owned buffer:
release of an owning handle, or explicit teardown of the buffer. -/
inductive BufOp
  | handleRelease
  | teardown
  deriving DecidableEq, Repr

/-- Modelled from the spec: one lifetime step of an externally-owned
buffer.  A handle release decrements the holder count and, when the
last holder drops, destroys the buffer; an explicit teardown destroys
it directly.  Destruction invokes the releaser exactly at the
live-to-dead transition, with the original descriptor; a dead buffer
ignores further operations (the exactly-once guard of the spec). -/
def ExtBufferState.step (d : ExtBufferDesc) (s : ExtBufferState) :
    BufOp → ExtBufferState
  | .handleRelease =>
      if s.live then
        if s.refs ≤ 1 then
          { refs := 0, live := false,
            events := s.events ++ [ReleaseEvent.releaserCall d.data d.len d.arg] }
        else { s with refs := s.refs - 1 }
      else s
  | .teardown =>
      if s.live then
        { refs := 0, live := false,
          events := s.events ++ [ReleaseEvent.releaserCall d.data d.len d.arg] }
      else s

/-- Runs a sequence of lifetime operations on an externally-owned
buffer. -/
def ExtBufferState.run (d : ExtBufferDesc) (s : ExtBufferState) :
    List BufOp → ExtBufferState
  | [] => s
  | op :: ops => ExtBufferState.run d (s.step d op) ops

/-- Modelled from the spec: the typed scalar factories build a
zero-rank tensor holding the given value verbatim. -/
def CreateInt64Scalar (v : Int) : TensorBuffer :=
  { dtype := .DT_INT64, dims := [], payload := some (.int64Val v) }

/-- Modelled from the spec: zero-rank uint64 scalar. -/
def CreateUint64Scalar (v : Nat) : TensorBuffer :=
  { dtype := .DT_UINT64, dims := [], payload := some (.uint64Val v) }

/-- Modelled from the spec: zero-rank int32 scalar. -/
def CreateInt32Scalar (v : Int) : TensorBuffer :=
  { dtype := .DT_INT32, dims := [], payload := some (.int32Val v) }

/-- Modelled from the spec: zero-rank float scalar (bit pattern). -/
def CreateFloatScalar (bits : Nat) : TensorBuffer :=
  { dtype := .DT_FLOAT, dims := [], payload := some (.floatVal bits) }

/-- Modelled from the spec: zero-rank double scalar (bit pattern). -/
def CreateDoubleScalar (bits : Nat) : TensorBuffer :=
  { dtype := .DT_DOUBLE, dims := [], payload := some (.doubleVal bits) }

/-- Modelled from the spec: zero-rank half scalar (bit pattern). -/
def CreateHalfScalar (bits : Nat) : TensorBuffer :=
  { dtype := .DT_HALF, dims := [], payload := some (.halfVal bits) }

/-- Modelled from the spec: zero-rank string scalar. -/
def CreateStringScalar (v : String) : TensorBuffer :=
  { dtype := .DT_STRING, dims := [], payload := some (.stringVal v) }

/-- Modelled from the spec: zero-rank complex128 scalar (component bit
patterns). -/
def CreateComplex128Scalar (reBits imBits : Nat) : TensorBuffer :=
  { dtype := .DT_COMPLEX128, dims := [],
    payload := some (.complex128Val reBits imBits) }

/-- Modelled from the spec: zero-rank bool scalar. -/
def CreateBoolScalar (v : Bool) : TensorBuffer :=
  { dtype := .DT_BOOL, dims := [], payload := some (.boolVal v) }

/-- Reads an int64 scalar back out of a buffer. -/
def TensorBuffer.readInt64 (t : TensorBuffer) : Option Int :=
  match t.payload with
  | some (.int64Val v) => some v
  | _ => none

/-- Reads a uint64 scalar back out of a buffer. -/
def TensorBuffer.readUint64 (t : TensorBuffer) : Option Nat :=
  match t.payload with
  | some (.uint64Val v) => some v
  | _ => none

/-- Reads an int32 scalar back out of a buffer. -/
def TensorBuffer.readInt32 (t : TensorBuffer) : Option Int :=
  match t.payload with
  | some (.int32Val v) => some v
  | _ => none

/-- Reads a float scalar bit pattern back out of a buffer. -/
def TensorBuffer.readFloat (t : TensorBuffer) : Option Nat :=
  match t.payload with
  | some (.floatVal b) => some b
  | _ => none

/-- Reads a double scalar bit pattern back out of a buffer. -/
def TensorBuffer.readDouble (t : TensorBuffer) : Option Nat :=
  match t.payload with
  | some (.doubleVal b) => some b
  | _ => none

/-- Reads a half scalar bit pattern back out of a buffer. -/
def TensorBuffer.readHalf (t : TensorBuffer) : Option Nat :=
  match t.payload with
  | some (.halfVal b) => some b
  | _ => none

/-- Reads a string scalar back out of a buffer. -/
def TensorBuffer.readString (t : TensorBuffer) : Option String :=
  match t.payload with
  | some (.stringVal v) => some v
  | _ => none

/-- Reads a complex128 scalar back out of a buffer. -/
def TensorBuffer.readComplex128 (t : TensorBuffer) : Option (Nat × Nat) :=
  match t.payload with
  | some (.complex128Val r i) => some (r, i)
  | _ => none

/-- Reads a bool scalar back out of a buffer. -/
def TensorBuffer.readBool (t : TensorBuffer) : Option Bool :=
  match t.payload with
  | some (.boolVal v) => some v
  | _ => none

/-- A tensor handle: dtype, shape, the device the value lives on, and
an identity of the backing buffer. -/
structure TensorHandle where
  dtype : DataType
  shape : List Int
  device : String
  bufferId : Nat
  deriving DecidableEq, Repr

/-- Modelled from the spec:
`CopyTensorHandleToDevice(handle, device_name)` materializes a copy of
the handle's value on the named device: on a known device it returns a
fresh handle of the same dtype and shape placed on that device, and on
a malformed or unknown name it returns NotFound.  The source handle
and the context are never mutated (the context is threaded through to
make that explicit; the copy's backing buffer is fresh). -/
def CopyTensorHandleToDevice (ctx : ImmediateExecutionContext)
    (h : TensorHandle) (deviceName : String) (freshId : Nat) :
    Except StatusCode TensorHandle × ImmediateExecutionContext :=
  if ctx.devices.contains deviceName then
    (Except.ok
      { dtype := h.dtype, shape := h.shape, device := deviceName,
        bufferId := freshId }, ctx)
  else
    (Except.error StatusCode.notFound, ctx)

/-- Modelled from the spec: `SetThreadLocalDevicePlacementPolicy`
records the policy for the calling thread only (threads are explicit
ids). -/
def SetThreadLocalDevicePlacementPolicy (ctx : ImmediateExecutionContext)
    (tid : Nat) (p : ContextDevicePlacementPolicy) :
    ImmediateExecutionContext :=
  { ctx with policies := fun t => if t = tid then some p else ctx.policies t }

/-- Modelled from the spec: `GetDevicePlacementPolicy` reads the
calling thread's policy; a thread that never set one observes the
default `DEVICE_PLACEMENT_SILENT` (enum comment, lines 45-47). -/
def GetDevicePlacementPolicy (ctx : ImmediateExecutionContext) (tid : Nat) :
    ContextDevicePlacementPolicy :=
  (ctx.policies tid).getD ContextDevicePlacementPolicy.DEVICE_PLACEMENT_SILENT

/-- An externally observable call on a context object; `release`
records a `Release()` call on the context with the given identity. -/
inductive ContextEvent
  | release (ctxId : Nat)
  deriving DecidableEq, Repr

/-- Embedded from `internal::ImmediateExecutionContextDeleter`
(lines 167-173): the deleter of an `ImmediateContextPtr` calls
`Release()` on the held pointer when it is non-null and does nothing
on null.  A pointer is `Option Nat` (`none` = nullptr) and the result
is the trace of `Release` calls the deleter performs. -/
def ImmediateExecutionContextDeleterRun (p : Option Nat) : List ContextEvent :=
  match p with
  | none => []
  | some ctxId => [ContextEvent.release ctxId]

/-- Kinds of `AbstractContext` (`abstract_context.h` is external to
this snapshot; the kind enum is modelled with the two kinds `classof`
names plus other members standing for the remaining variants). -/
inductive AbstractContextKind
  | kGraph
  | kMlir
  | kEager
  | kTfrt
  deriving DecidableEq, Repr

/-- An `AbstractContext` as far as `classof` can observe it: its kind
tag. -/
structure AbstractContext where
  kind : AbstractContextKind
  deriving DecidableEq, Repr

/-- The `getKind` accessor of `AbstractContext`. -/
def AbstractContext.getKind (c : AbstractContext) : AbstractContextKind :=
  c.kind

/-- Embedded from `ImmediateExecutionContext::classof` (lines
136-138): accepts exactly the contexts whose kind is `kEager` or
`kTfrt`. -/
def classof (ptr : AbstractContext) : Bool :=
  ptr.getKind == AbstractContextKind.kEager ||
  ptr.getKind == AbstractContextKind.kTfrt

/-- A concrete context state used to instantiate the specification
theorems on closed inputs. -/
def sampleContext : ImmediateExecutionContext :=
  { functions := [], runMetadata := [], policies := fun _ => none,
    executors := fun _ => EagerExecutor.init,
    devices := ["CPU:0", "CPU:1"], shouldStoreGraphs := false }

/-! Helper lemmas. -/

/-- One lifetime step preserves the trace invariant of an
externally-owned buffer: no releaser call while alive, exactly the one
original call once dead. -/
theorem extBufferStep_events (d : ExtBufferDesc) (s : ExtBufferState) (op : BufOp)
    (h : s.events =
      if s.live then [] else [ReleaseEvent.releaserCall d.data d.len d.arg]) :
    (s.step d op).events =
      if (s.step d op).live then []
      else [ReleaseEvent.releaserCall d.data d.len d.arg] := by
  cases op with
  | handleRelease =>
      by_cases hl : s.live
      · by_cases hr : s.refs ≤ 1
        · simp [ExtBufferState.step, hl, hr] at h ⊢
          simp [h]
        · simp [ExtBufferState.step, hl, hr] at h ⊢
          simp [h]
      · simp [ExtBufferState.step, hl] at h ⊢
        simp [h]
  | teardown =>
      by_cases hl : s.live
      · simp [ExtBufferState.step, hl] at h ⊢
        simp [h]
      · simp [ExtBufferState.step, hl] at h ⊢
        simp [h]

/-- Running any operation sequence preserves the trace invariant. -/
theorem extBufferRun_events (d : ExtBufferDesc) (ops : List BufOp) :
    ∀ s : ExtBufferState,
      s.events =
        (if s.live then [] else [ReleaseEvent.releaserCall d.data d.len d.arg]) →
      (s.run d ops).events =
        if (s.run d ops).live then []
        else [ReleaseEvent.releaserCall d.data d.len d.arg] := by
  induction ops with
  | nil =>
      intro s h
      simpa [ExtBufferState.run] using h
  | cons op ops ih =>
      intro s h
      simpa [ExtBufferState.run] using ih _ (extBufferStep_events d s op h)

/-- Running a concatenation of operation sequences runs them in
order. -/
theorem extBufferRun_append (d : ExtBufferDesc) (l1 l2 : List BufOp) :
    ∀ s : ExtBufferState, s.run d (l1 ++ l2) = (s.run d l1).run d l2 := by
  induction l1 with
  | nil => intro s; simp [ExtBufferState.run]
  | cons op l1 ih => intro s; simp [ExtBufferState.run, ih]

/-- A teardown step always leaves the buffer dead. -/
theorem extBufferStep_teardown_dead (d : ExtBufferDesc) (s : ExtBufferState) :
    (s.step d BufOp.teardown).live = false := by
  by_cases hl : s.live <;> simp [ExtBufferState.step, hl]

/-! Claim theorems. -/

/-- C1: a tensor made by the externally-owned-memory overload of
`CreateTensor` with releaser arguments `(data, len, arg)` invokes the
releaser zero times while the buffer is still alive and exactly once
— with exactly the original `data`, `len` and `arg` — once it has been
destroyed, under every interleaving of handle releases and explicit
teardowns; in particular a lifetime ending in destruction produces
exactly one invocation. -/
theorem c1_external_releaser_exactly_once (d : ExtBufferDesc)
    (ops : List BufOp) :
    ((createTensorExternal d).run d ops).events =
      (if ((createTensorExternal d).run d ops).live then []
       else [ReleaseEvent.releaserCall d.data d.len d.arg]) ∧
    ((createTensorExternal d).run d (ops ++ [BufOp.teardown])).events =
      [ReleaseEvent.releaserCall d.data d.len d.arg] := by
  have hinv := extBufferRun_events d ops (createTensorExternal d)
    (by simp [createTensorExternal])
  refine ⟨hinv, ?_⟩
  rw [extBufferRun_append]
  have hdead := extBufferStep_teardown_dead d ((createTensorExternal d).run d ops)
  have := extBufferStep_events d ((createTensorExternal d).run d ops)
    BufOp.teardown hinv
  simpa [ExtBufferState.run, hdead] using this

/-- C2: `AddFunctionDef` returns AlreadyExists and leaves the context
— registry included — untouched whenever a function of the same name
is registered; otherwise it succeeds, appends the definition
atomically, and `FindFunctionDef` subsequently returns it. -/
theorem c2_addFunctionDef_spec (ctx : ImmediateExecutionContext)
    (fdef : FunctionDef) :
    ((FindFunctionDef ctx fdef.name).isSome = true →
        AddFunctionDef ctx fdef = (StatusCode.alreadyExists, ctx)) ∧
    (FindFunctionDef ctx fdef.name = none →
        (AddFunctionDef ctx fdef).1 = StatusCode.ok ∧
        FindFunctionDef (AddFunctionDef ctx fdef).2 fdef.name = some fdef ∧
        (AddFunctionDef ctx fdef).2.functions = ctx.functions ++ [fdef]) := by
  constructor
  · intro h
    have hex : ∃ g ∈ ctx.functions, g.name = fdef.name := by
      simpa [FindFunctionDef] using h
    have hany : ctx.functions.any (fun f => f.name = fdef.name) = true := by
      simp only [List.any_eq_true, decide_eq_true_eq]
      exact hex
    simp [AddFunctionDef, hany]
  · intro h
    have hall : ∀ f ∈ ctx.functions, ¬ f.name = fdef.name := by
      simpa [FindFunctionDef] using h
    have hany : ctx.functions.any (fun f => f.name = fdef.name) = false := by
      simp only [List.any_eq_false, decide_eq_true_eq]
      exact hall
    refine ⟨by simp [AddFunctionDef, hany], ?_, by simp [AddFunctionDef, hany]⟩
    simp only [AddFunctionDef, hany, Bool.false_eq_true, if_false,
      FindFunctionDef, List.find?_append]
    rw [List.find?_eq_none.mpr (fun x hx => by simpa using hall x hx)]
    simp [List.find?]

/-- C2 witness: with an empty registry, adding a definition succeeds
and the definition is found afterwards. -/
theorem c2_addFunctionDef_witness :
    ((AddFunctionDef sampleContext { name := "f", body := "b" }).1 =
        StatusCode.ok ∧
     FindFunctionDef
        (AddFunctionDef sampleContext { name := "f", body := "b" }).2 "f" =
        some { name := "f", body := "b" } ∧
     (AddFunctionDef sampleContext { name := "f", body := "b" }).2.functions =
       [] ++ [{ name := "f", body := "b" }]) :=
  (c2_addFunctionDef_spec sampleContext { name := "f", body := "b" }).2 rfl

/-- Running drain with a sticky error already recorded keeps that
error whatever the remaining nodes do. -/
theorem drainNodes_some (s : StatusCode) (ns : List OpNode) :
    drainNodes (some s) ns = some s := by
  induction ns with
  | nil => rfl
  | cons n rest ih =>
      by_cases h : n.nodeStatus = StatusCode.ok <;>
        simp [drainNodes, h, Option.orElse, ih]

/-- Draining from a clean error state surfaces exactly the first
failing node's status, if any. -/
theorem drainNodes_none (ns : List OpNode) :
    drainNodes none ns =
      (ns.find? (fun n => n.nodeStatus ≠ StatusCode.ok)).map
        (fun n => n.nodeStatus) := by
  induction ns with
  | nil => rfl
  | cons n rest ih =>
      by_cases h : n.nodeStatus = StatusCode.ok
      · simp [drainNodes, List.find?, h, ih]
      · simp [drainNodes, List.find?, h, Option.orElse, drainNodes_some]

/-- C3: `AsyncWait` drains only the calling thread's executor: it
returns the status of the first failing node among that executor's
pending nodes (ok when none), leaves every other thread's executor
untouched, and leaves the calling thread's executor empty with its
error state cleared so that a new submission is accepted. -/
theorem c3_asyncWait_spec (ctx : ImmediateExecutionContext) (t1 t2 : Nat)
    (hne : t2 ≠ t1) (herr : (ctx.executors t1).errorState = none) :
    (AsyncWait ctx t1).1 = firstError (ctx.executors t1).pending ∧
    (AsyncWait ctx t1).2.executors t2 = ctx.executors t2 ∧
    (AsyncWait ctx t1).2.executors t1 =
      { pending := [], errorState := none } ∧
    ∀ n : OpNode,
      ((AsyncWait ctx t1).2.executors t1).submit n =
        (StatusCode.ok, { pending := [n], errorState := none }) := by
  refine ⟨?_, ?_, ?_, ?_⟩
  · simp only [AsyncWait, EagerExecutor.waitForAllPending, herr,
      drainNodes_none, firstError]
    cases hf : (ctx.executors t1).pending.find?
        (fun n => n.nodeStatus ≠ StatusCode.ok) <;> simp [hf]
  · simp [AsyncWait, hne]
  · simp [AsyncWait, EagerExecutor.waitForAllPending]
  · intro n
    simp [AsyncWait, EagerExecutor.waitForAllPending, EagerExecutor.submit]

/-- C3 witness: on a context whose thread-0 executor holds an ok node,
a NotFound node and an InvalidArgument node, `AsyncWait` on thread 0
returns NotFound, leaves thread 1 alone, clears thread 0's executor
and accepts a fresh submission. -/
theorem c3_asyncWait_witness :
    (AsyncWait
      { sampleContext with
        executors := fun t =>
          if t = 0 then
            { pending := [{ nodeStatus := StatusCode.ok },
                          { nodeStatus := StatusCode.notFound },
                          { nodeStatus := StatusCode.invalidArgument }],
              errorState := none }
          else EagerExecutor.init } 0).1 = StatusCode.notFound ∧
    (AsyncWait
      { sampleContext with
        executors := fun t =>
          if t = 0 then
            { pending := [{ nodeStatus := StatusCode.ok },
                          { nodeStatus := StatusCode.notFound },
                          { nodeStatus := StatusCode.invalidArgument }],
              errorState := none }
          else EagerExecutor.init } 0).2.executors 1 = EagerExecutor.init := by
  have h := c3_asyncWait_spec
    { sampleContext with
      executors := fun t =>
        if t = 0 then
          { pending := [{ nodeStatus := StatusCode.ok },
                        { nodeStatus := StatusCode.notFound },
                        { nodeStatus := StatusCode.invalidArgument }],
            errorState := none }
        else EagerExecutor.init } 0 1 (by decide) rfl
  exact ⟨h.1.trans (by rfl), h.2.1.trans (by rfl)⟩

/-- C4: `ExportRunMetadata` hands all metadata accumulated so far to
the caller and resets the internal buffer, so a second consecutive
call yields an empty result. -/
theorem c4_exportRunMetadata_spec (ctx : ImmediateExecutionContext) :
    (ExportRunMetadata ctx).1 = ctx.runMetadata ∧
    (ExportRunMetadata ctx).2.runMetadata = [] ∧
    (ExportRunMetadata (ExportRunMetadata ctx).2).1 = [] := by
  simp [ExportRunMetadata]

/-- C5: the shaped `CreateTensor` fails with InvalidArgument and
changes nothing when any dimension is negative, and returns an
uninitialized tensor of the requested dtype and shape when all
dimensions are non-negative (the context passes through unchanged in
both cases). -/
theorem c5_createTensorShaped_spec (ctx : ImmediateExecutionContext)
    (dtype : DataType) (dims : List Int) :
    ((∃ d ∈ dims, d < 0) →
        CreateTensorShaped ctx dtype dims =
          (Except.error StatusCode.invalidArgument, ctx)) ∧
    ((∀ d ∈ dims, 0 ≤ d) →
        CreateTensorShaped ctx dtype dims =
          (Except.ok { dtype := dtype, dims := dims, payload := none },
           ctx)) := by
  constructor
  · intro h
    have hany : dims.any (fun d => d < 0) = true := by
      simp only [List.any_eq_true, decide_eq_true_eq]
      exact h
    simp [CreateTensorShaped, hany]
  · intro h
    have hany : dims.any (fun d => d < 0) = false := by
      simp only [List.any_eq_false, decide_eq_true_eq]
      intro d hd
      exact not_lt.mpr (h d hd)
    simp [CreateTensorShaped, hany]

/-- C5 witness: shape `[2, -1]` is rejected with InvalidArgument and
shape `[2, 3]` is allocated uninitialized, the context unchanged. -/
theorem c5_createTensorShaped_witness :
    CreateTensorShaped sampleContext DataType.DT_FLOAT [2, -1] =
      (Except.error StatusCode.invalidArgument, sampleContext) ∧
    CreateTensorShaped sampleContext DataType.DT_FLOAT [2, 3] =
      (Except.ok
        { dtype := DataType.DT_FLOAT, dims := [2, 3], payload := none },
       sampleContext) :=
  ⟨(c5_createTensorShaped_spec sampleContext DataType.DT_FLOAT [2, -1]).1
      ⟨-1, by decide, by decide⟩,
   (c5_createTensorShaped_spec sampleContext DataType.DT_FLOAT [2, 3]).2
      (by decide)⟩

/-- C6: on a known device name, `CopyTensorHandleToDevice` returns a
fresh handle with the source's dtype and shape placed on that device;
on an unknown or malformed name it returns NotFound; in every case the
context (and hence the source handle it tracks) is unchanged, the
source handle being passed by value and never rebuilt. -/
theorem c6_copyTensorHandleToDevice_spec (ctx : ImmediateExecutionContext)
    (th : TensorHandle) (d : String) (freshId : Nat) :
    (ctx.devices.contains d = true →
        (CopyTensorHandleToDevice ctx th d freshId).1 =
          Except.ok
            { dtype := th.dtype, shape := th.shape, device := d,
              bufferId := freshId }) ∧
    (ctx.devices.contains d = false →
        (CopyTensorHandleToDevice ctx th d freshId).1 =
          Except.error StatusCode.notFound) ∧
    (CopyTensorHandleToDevice ctx th d freshId).2 = ctx := by
  refine ⟨fun hc => ?_, fun hc => ?_, ?_⟩
  · have hm : d ∈ ctx.devices := by simpa using hc
    simp [CopyTensorHandleToDevice, hm]
  · have hm : d ∉ ctx.devices := by simpa using hc
    simp [CopyTensorHandleToDevice, hm]
  · by_cases hm : d ∈ ctx.devices <;>
      simp [CopyTensorHandleToDevice, hm]

/-- C6 witness: copying a 2×3 float handle from CPU:0 to the known
device CPU:1 yields a handle of equal dtype/shape on CPU:1, copying to
the unknown device GPU:9 yields NotFound, and the context is unchanged
both times. -/
theorem c6_copyTensorHandleToDevice_witness :
    (CopyTensorHandleToDevice sampleContext
        { dtype := DataType.DT_FLOAT, shape := [2, 3], device := "CPU:0",
          bufferId := 7 } "CPU:1" 8).1 =
      Except.ok
        { dtype := DataType.DT_FLOAT, shape := [2, 3], device := "CPU:1",
          bufferId := 8 } ∧
    (CopyTensorHandleToDevice sampleContext
        { dtype := DataType.DT_FLOAT, shape := [2, 3], device := "CPU:0",
          bufferId := 7 } "GPU:9" 8).1 =
      Except.error StatusCode.notFound ∧
    (CopyTensorHandleToDevice sampleContext
        { dtype := DataType.DT_FLOAT, shape := [2, 3], device := "CPU:0",
          bufferId := 7 } "CPU:1" 8).2 = sampleContext := by
  refine ⟨?_, ?_, ?_⟩
  · exact (c6_copyTensorHandleToDevice_spec sampleContext
      { dtype := DataType.DT_FLOAT, shape := [2, 3], device := "CPU:0",
        bufferId := 7 } "CPU:1" 8).1 (by decide)
  · exact (c6_copyTensorHandleToDevice_spec sampleContext
      { dtype := DataType.DT_FLOAT, shape := [2, 3], device := "CPU:0",
        bufferId := 7 } "GPU:9" 8).2.1 (by decide)
  · exact (c6_copyTensorHandleToDevice_spec sampleContext
      { dtype := DataType.DT_FLOAT, shape := [2, 3], device := "CPU:0",
        bufferId := 7 } "CPU:1" 8).2.2

/-- C7: for every supported primitive dtype, creating a scalar through
the corresponding typed factory and reading it back yields exactly the
input value, and the created tensor has zero rank. -/
theorem c7_scalar_roundtrip :
    (∀ v : Int, (CreateInt64Scalar v).readInt64 = some v ∧
        (CreateInt64Scalar v).dims = []) ∧
    (∀ v : Nat, (CreateUint64Scalar v).readUint64 = some v ∧
        (CreateUint64Scalar v).dims = []) ∧
    (∀ v : Int, (CreateInt32Scalar v).readInt32 = some v ∧
        (CreateInt32Scalar v).dims = []) ∧
    (∀ v : Nat, (CreateFloatScalar v).readFloat = some v ∧
        (CreateFloatScalar v).dims = []) ∧
    (∀ v : Nat, (CreateDoubleScalar v).readDouble = some v ∧
        (CreateDoubleScalar v).dims = []) ∧
    (∀ v : Nat, (CreateHalfScalar v).readHalf = some v ∧
        (CreateHalfScalar v).dims = []) ∧
    (∀ v : String, (CreateStringScalar v).readString = some v ∧
        (CreateStringScalar v).dims = []) ∧
    (∀ r i : Nat, (CreateComplex128Scalar r i).readComplex128 = some (r, i) ∧
        (CreateComplex128Scalar r i).dims = []) ∧
    (∀ v : Bool, (CreateBoolScalar v).readBool = some v ∧
        (CreateBoolScalar v).dims = []) :=
  ⟨fun _ => ⟨rfl, rfl⟩, fun _ => ⟨rfl, rfl⟩, fun _ => ⟨rfl, rfl⟩,
   fun _ => ⟨rfl, rfl⟩, fun _ => ⟨rfl, rfl⟩, fun _ => ⟨rfl, rfl⟩,
   fun _ => ⟨rfl, rfl⟩, fun _ _ => ⟨rfl, rfl⟩, fun _ => ⟨rfl, rfl⟩⟩

/-- C8: setting the placement policy on one thread never changes what
another thread observes, and a thread that never set a policy observes
the default `DEVICE_PLACEMENT_SILENT`. -/
theorem c8_placementPolicy_thread_local (ctx : ImmediateExecutionContext)
    (t1 t2 : Nat) (p : ContextDevicePlacementPolicy) (hne : t2 ≠ t1) :
    GetDevicePlacementPolicy
        (SetThreadLocalDevicePlacementPolicy ctx t1 p) t2 =
      GetDevicePlacementPolicy ctx t2 ∧
    (ctx.policies t2 = none →
      GetDevicePlacementPolicy ctx t2 =
        ContextDevicePlacementPolicy.DEVICE_PLACEMENT_SILENT) := by
  constructor
  · simp [GetDevicePlacementPolicy, SetThreadLocalDevicePlacementPolicy, hne]
  · intro h
    simp [GetDevicePlacementPolicy, h]

/-- C8 witness: setting EXPLICIT on thread 0 leaves thread 1 at the
SILENT default, which is also what the untouched context reports. -/
theorem c8_placementPolicy_witness :
    GetDevicePlacementPolicy
        (SetThreadLocalDevicePlacementPolicy sampleContext 0
          ContextDevicePlacementPolicy.DEVICE_PLACEMENT_EXPLICIT) 1 =
      GetDevicePlacementPolicy sampleContext 1 ∧
    GetDevicePlacementPolicy sampleContext 1 =
      ContextDevicePlacementPolicy.DEVICE_PLACEMENT_SILENT := by
  have h := c8_placementPolicy_thread_local sampleContext 0 1
    ContextDevicePlacementPolicy.DEVICE_PLACEMENT_EXPLICIT (by decide)
  exact ⟨h.1, h.2 rfl⟩

/-- C9: the `ImmediateContextPtr` deleter performs zero `Release`
calls on a null pointer and exactly one `Release` call — on the held
context — on a non-null pointer. -/
theorem c9_deleter_release_iff_nonnull :
    ImmediateExecutionContextDeleterRun none = [] ∧
    ∀ ctxId : Nat,
      ImmediateExecutionContextDeleterRun (some ctxId) =
        [ContextEvent.release ctxId] :=
  ⟨rfl, fun _ => rfl⟩

/-- C10: `classof` accepts a context exactly when its kind tag is
`kEager` or `kTfrt`; the result is a pure function of the kind tag
alone. -/
theorem c10_classof_spec (ptr : AbstractContext) :
    classof ptr =
      decide (ptr.getKind = AbstractContextKind.kEager ∨
              ptr.getKind = AbstractContextKind.kTfrt) := by
  cases ptr with
  | mk k => cases k <;> rfl

end TFEager
